import Mathlib

/-!
# Shallow embedding of the shell-job-queue server

This file embeds the job execution engine of the Go server (current
iteration, `src/unnamed/part_000`) in Lean 4 and proves properties
of its job lifecycle, HTTP endpoints, metadata persistence, webhook
notification and job listing.

Modelling conventions:
* Go `time.Time` values are modelled as `Nat` instants; `time.Time`
  fields carrying the Go zero value are modelled as `Option Nat = none`.
* The Go `PID int` field uses `json:"pid,omitempty"`, so a zero pid is
  absent from the persisted document; it is modelled as `Option Nat`,
  `none` meaning absent.
* Statuses are the literal Go strings (`"IN_QUEUE"`, ...); the Go zero
  value of the field is the empty string.
* File-system and process effects are recorded as an explicit event
  trace (`RunEvent`), in the order the Go code performs them.
* The bytes of a `meta.json` file are abstracted to their parse result:
  `none` for content `json.Unmarshal` rejects, `some m` for content that
  parses to the record `m`.
-/

namespace ShellJobQueue

/-- The persisted job record, mirroring Go struct `JobMeta`
(`part_000` lines 21-31).  `pid`, `startedAt` and `completedAt` are
`none` when the corresponding Go field holds its zero value. -/
structure JobMeta where
  id : String
  args : List String
  mimeType : String
  webhook : String
  status : String
  pid : Option Nat
  enqueuedAt : Nat
  startedAt : Option Nat
  completedAt : Option Nat
deriving Repr, DecidableEq

/-- The zero value of the Go `JobMeta` struct: every field at its Go
zero value. -/
def zeroMeta : JobMeta :=
  { id := ""
    args := []
    mimeType := ""
    webhook := ""
    status := ""
    pid := none
    enqueuedAt := 0
    startedAt := none
    completedAt := none }

/-- The record created by `submitJob` (`part_000` lines 123-130):
status `IN_QUEUE`, no pid, no started/completed timestamps. -/
def submitMeta (id : String) (args : List String) (mimeType webhook : String)
    (now : Nat) : JobMeta :=
  { id := id
    args := args
    mimeType := mimeType
    webhook := webhook
    status := "IN_QUEUE"
    pid := none
    enqueuedAt := now
    startedAt := none
    completedAt := none }

/-- The body of the webhook notification POST built by `sendWebhook`
(`part_000` lines 303-311): exactly the three fields `id`, `status`
and `result_url`. -/
structure WebhookPayload where
  id : String
  status : String
  result_url : String
deriving Repr, DecidableEq

/-- `sendWebhook` (`part_000` lines 303-311): the payload fields read
from the job record; `result_url` is the relative path, with no base
URL applied. -/
def sendWebhook (meta : JobMeta) : WebhookPayload :=
  { id := meta.id
    status := meta.status
    result_url := "/jobs/" ++ meta.id ++ "/result" }

/-- One observable effect performed by `runJob`, in program order. -/
inductive RunEvent where
  /-- a `saveMeta` call persisting the record -/
  | save (m : JobMeta)
  /-- insertion of the job into the `runningJobs` registry -/
  | register (id : String)
  /-- deletion of the job from the `runningJobs` registry -/
  | unregister (id : String)
  /-- `os.Remove` of the staged input file -/
  | removeInput (path : String)
  /-- the child process's stdin being attached to the staged input file -/
  | attachStdin (path : String)
  /-- the webhook notification POST being attempted -/
  | webhook (p : WebhookPayload)
deriving Repr, DecidableEq

/-- The environment a single `runJob` invocation observes:
whether `cmd.Start()` succeeded (and the child's pid), whether opening
the staged input file succeeded, whether `cmd.Wait()` returned an
error, whether `ctx.Err() == context.Canceled` at the check after the
wait, and the two `time.Now()` readings. -/
structure RunEnv where
  /-- `some pid` when `cmd.Start()` succeeds, `none` on spawn error -/
  spawn : Option Nat
  /-- `os.Open(inputFilePath)` succeeded -/
  inputOpenOk : Bool
  /-- `cmd.Wait()` returned a non-nil error -/
  waitErr : Bool
  /-- `ctx.Err() == context.Canceled` when checked after the wait -/
  cancelFired : Bool
  /-- `time.Now()` at spawn (or at spawn failure) -/
  startTime : Nat
  /-- `time.Now()` after the wait returns -/
  endTime : Nat
deriving Repr, DecidableEq

/-- The terminal-status resolution at the end of `runJob`
(`part_000` lines 265-271): cancellation first, then wait error,
then success. -/
def resolveTerminal (cancelFired : Bool) (waitErr : Bool) : String :=
  if cancelFired then "CANCELED"
  else if waitErr then "FAILED"
  else "COMPLETED"

/-- `runJob` (`part_000` lines 208-284) as the trace of its effects.

Program order in the source: optionally open the staged input file and
attach it as stdin (lines 220-227); `cmd.Start()`; on spawn error set
status `FAILED` with `StartedAt = CompletedAt = time.Now()`, save and
return (lines 234-240) — note the early return skips the input-file
removal and the webhook; otherwise record the pid, set `IN_PROGRESS`
and `StartedAt`, save (lines 241-244); insert into the registry
(246-248); wait; set `CompletedAt` (250-251); delete from the registry
(253-255); remove the staged input file if present (261-263); resolve
the terminal status and save (265-272); attempt the webhook when a
webhook URL was supplied (278-283). -/
def runJob (meta : JobMeta) (inputFilePath : Option String) (env : RunEnv) :
    List RunEvent :=
  let stdinEvents : List RunEvent :=
    match inputFilePath with
    | some p => if env.inputOpenOk then [.attachStdin p] else []
    | none => []
  match env.spawn with
  | none =>
      let m := { meta with
                 status := "FAILED"
                 startedAt := some env.startTime
                 completedAt := some env.startTime }
      stdinEvents ++ [.save m]
  | some pid =>
      let m1 := { meta with
                  pid := some pid
                  status := "IN_PROGRESS"
                  startedAt := some env.startTime }
      let m2 := { m1 with completedAt := some env.endTime }
      let m3 := { m2 with status := resolveTerminal env.cancelFired env.waitErr }
      stdinEvents
        ++ [.save m1, .register meta.id, .unregister meta.id]
        ++ (match inputFilePath with
            | some p => [.removeInput p]
            | none => [])
        ++ [.save m3]
        ++ (if meta.webhook ≠ "" then [.webhook (sendWebhook m3)] else [])

/-- The records persisted by a trace, in order. -/
def savedMetas (es : List RunEvent) : List JobMeta :=
  es.filterMap fun e =>
    match e with
    | .save m => some m
    | _ => none

/-- The webhook attempts in a trace, in order. -/
def webhookEvents (es : List RunEvent) : List WebhookPayload :=
  es.filterMap fun e =>
    match e with
    | .webhook p => some p
    | _ => none

/-- The staged-input removals in a trace. -/
def removeInputEvents (es : List RunEvent) : List String :=
  es.filterMap fun e =>
    match e with
    | .removeInput p => some p
    | _ => none

/-- The stdin attachments in a trace. -/
def attachStdinEvents (es : List RunEvent) : List String :=
  es.filterMap fun e =>
    match e with
    | .attachStdin p => some p
    | _ => none

/-- One step of the `runningJobs` registry, driven by the trace. -/
def registryStep (reg : List String) : RunEvent → List String
  | .register id => id :: reg
  | .unregister id => reg.erase id
  | _ => reg

/-- The contents of the `runningJobs` registry after a trace, starting
from the given registry. -/
def registryAfter (reg : List String) (es : List RunEvent) : List String :=
  es.foldl registryStep reg

/-- The `cancel` endpoint (`part_000` lines 186-196): under the lock it
looks the id up in `runningJobs` and, when present, invokes the
cancellation token.  It never writes the job record; its only effect is
whether the token fired, which is the returned Bool.  An absent id is
silently ignored and the handler still answers 200. -/
def cancelRequest (running : List String) (id : String) : Bool :=
  running.contains id

/-- The status strings the state machine treats as terminal. -/
def isTerminal (s : String) : Bool :=
  s = "COMPLETED" || s = "FAILED" || s = "CANCELED"

/-- The status transitions the spec's state machine permits, including
the direct `IN_QUEUE → FAILED` skip on spawn failure. -/
def allowedTransition (a b : String) : Bool :=
  (a = "IN_QUEUE" && b = "IN_PROGRESS")
  || (a = "IN_QUEUE" && b = "FAILED")
  || (a = "IN_PROGRESS" && (b = "COMPLETED" || b = "FAILED" || b = "CANCELED"))

/-! ## Metadata loading and the read-only endpoints

The bytes of a job's `meta.json` are abstracted to their parse result:
a `MetaFile := Option (Option JobMeta)` is `none` when `os.ReadFile`
fails (no such job directory), `some none` when the file is readable
but `json.Unmarshal` rejects its content, and `some (some m)` when it
parses to the record `m`. -/

/-- The on-disk state of one job's `meta.json`, abstracted to its
read/parse outcome. -/
abbrev MetaFile := Option (Option JobMeta)

/-- Go's `json.Unmarshal(data, &meta)` with the error discarded
(`part_000` line 299): on parse failure `meta` keeps its zero value. -/
def unmarshalMeta (parsed : Option JobMeta) : JobMeta :=
  parsed.getD zeroMeta

/-- `loadMeta` (`part_000` lines 292-301): an unreadable file is the
only error; the `json.Unmarshal` error is ignored, so unparseable
content yields `ok` with the zero-valued record. -/
def loadMeta (file : MetaFile) : Except Unit JobMeta :=
  match file with
  | none => .error ()
  | some parsed => .ok (unmarshalMeta parsed)

/-- An HTTP response of the result or log endpoints: the served bytes,
or a 404. -/
inductive HttpResponse where
  | ok (body : String)
  | notFound
deriving Repr, DecidableEq

/-- A response of the status endpoint: the record as the body, or 404. -/
inductive StatusResponse where
  | ok (m : JobMeta)
  | notFound
deriving Repr, DecidableEq

/-- The `status` branch of `jobHandler` (`part_000` lines 164-170):
404 exactly when `loadMeta` errors, else the loaded record. -/
def statusEndpoint (file : MetaFile) : StatusResponse :=
  match loadMeta file with
  | .error _ => .notFound
  | .ok meta => .ok meta

/-- The `result` branch of `jobHandler` (`part_000` lines 171-178):
404 when `loadMeta` errors or the status is not `COMPLETED`; otherwise
the captured stdout artifact is served verbatim.  `stdoutContent` is
the content of the job's `stdout.txt`. -/
def resultEndpoint (file : MetaFile) (stdoutContent : String) : HttpResponse :=
  match loadMeta file with
  | .error _ => .notFound
  | .ok meta =>
      if meta.status ≠ "COMPLETED" then .notFound
      else .ok stdoutContent

/-! ## The submission response and the job listing -/

/-- The body of the `POST /jobs` response (`part_000` lines 144-150). -/
structure SubmitResponse where
  id : String
  status_url : String
  result_url : String
  log_url : String
deriving Repr, DecidableEq

/-- The URLs returned by `submitJob` (`part_000` lines 134-150): the
relative paths, prefixed by `BASE_URL` when that variable is
non-empty. -/
def submitResponse (baseURL : String) (id : String) : SubmitResponse :=
  let statusPath := "/jobs/" ++ id ++ "/status"
  let resultPath := "/jobs/" ++ id ++ "/result"
  let logPath := "/jobs/" ++ id ++ "/log"
  if baseURL ≠ "" then
    { id := id
      status_url := baseURL ++ statusPath
      result_url := baseURL ++ resultPath
      log_url := baseURL ++ logPath }
  else
    { id := id
      status_url := statusPath
      result_url := resultPath
      log_url := logPath }

/-- One element of the `GET /jobs` response array (`part_000` lines
319-326).  The `enqueuedAt` sort key: the source formats the record's
`EnqueuedAt` with `time.RFC3339` and compares the strings; for the
fixed-offset clock of a single server process that comparison agrees
with the order of the instants, so the key is modelled as the instant
itself. -/
structure JobListing where
  id : String
  args : List String
  status : String
  resultURL : String
  logURL : String
  enqueuedAt : Nat
deriving Repr, DecidableEq

/-- The listing entry built for one readable record in the loop of
`listJobs` (`part_000` lines 341-361). -/
def mkListing (baseURL : String) (m : JobMeta) : JobListing :=
  let resultPath := "/jobs/" ++ m.id ++ "/result"
  let logPath := "/jobs/" ++ m.id ++ "/log"
  let resultPath := if baseURL ≠ "" then baseURL ++ resultPath else resultPath
  let logPath := if baseURL ≠ "" then baseURL ++ logPath else logPath
  { id := m.id
    args := m.args
    status := m.status
    resultURL := resultPath
    logURL := logPath
    enqueuedAt := m.enqueuedAt }

/-- The `sort.Slice` call of `listJobs` (`part_000` lines 363-366),
ordering entries newest first by the enqueued timestamp, modelled as a
comparison sort with the same less-than function (`sort.Slice` promises
only that the result is ordered by the supplied comparison). -/
def sortByEnqDesc (l : List JobListing) : List JobListing :=
  l.insertionSort (fun a b => b.enqueuedAt ≤ a.enqueuedAt)

/-- `listJobs` (`part_000` lines 313-369) over the per-directory
read/parse outcomes of the job directories' `meta.json` files: a
directory whose metadata cannot be read or parsed is skipped by
`continue`; each remaining record yields one entry; the entries are
then sorted newest first. -/
def listJobs (baseURL : String) (entries : List (Option JobMeta)) :
    List JobListing :=
  sortByEnqDesc (entries.filterMap fun o => o.map (mkListing baseURL))

/-- The statuses a job's record passes through: the `IN_QUEUE` record
persisted by `submitJob`, followed by the statuses of the records
`runJob` persists, in order. -/
def statusTrace (meta : JobMeta) (es : List RunEvent) : List String :=
  meta.status :: (savedMetas es).map JobMeta.status

/-- The registry insertions in a trace. -/
def registerEvents (es : List RunEvent) : List String :=
  es.filterMap fun e =>
    match e with
    | .register id => some id
    | _ => none

/-! ## Theorems -/

/-- Filtering out the unreadable records and then building the listing
entries is building an entry for each readable record. -/
theorem filterMap_option_map (baseURL : String) (entries : List (Option JobMeta)) :
    (entries.filterMap fun o => o.map (mkListing baseURL))
      = (entries.filterMap id).map (mkListing baseURL) := by
  induction entries with
  | nil => rfl
  | cons o os ih => cases o <;> simp [ih]

/-- C1: for every job that reached `IN_PROGRESS` (its process spawned,
so `runJob` passed the `cmd.Start()` check), the terminal status of the
last record persisted is resolved by priority: if the cancellation
token fired the status is `CANCELED` regardless of the wait error;
otherwise a wait error yields `FAILED`; otherwise `COMPLETED`. -/
theorem terminal_status_resolved_by_priority (meta : JobMeta)
    (inp : Option String) (openOk w c : Bool) (pid t0 t1 : Nat) :
    ∃ m, (savedMetas (runJob meta inp
          ⟨some pid, openOk, w, c, t0, t1⟩)).getLast? = some m
      ∧ m.status = (if c then "CANCELED" else if w then "FAILED" else "COMPLETED") := by
  refine ⟨{ meta with
            pid := some pid
            status := resolveTerminal c w
            startedAt := some t0
            completedAt := some t1 }, ?_, ?_⟩
  · by_cases hw : meta.webhook = "" <;>
      rcases inp with _ | p <;> rcases openOk with _ | _ <;>
      rcases c with _ | _ <;> rcases w with _ | _ <;>
      simp [runJob, savedMetas, resolveTerminal, sendWebhook, hw]
  · rcases c with _ | _ <;> rcases w with _ | _ <;> simp [resolveTerminal]

/-- C2: for every job, the sequence of persisted statuses follows
`IN_QUEUE → IN_PROGRESS → {COMPLETED, FAILED, CANCELED}` with the
direct `IN_QUEUE → FAILED` skip permitted; a terminal status appears
only as the last persisted status (terminal-once-reached), the trace
does end in a terminal status, and a cancellation request arriving
after the run is over finds the job absent from the running registry,
fires no token, and (the handler writing no record at all) leaves the
recorded status unchanged. -/
theorem status_transitions_monotonic_terminal_absorbing (id : String)
    (args : List String) (mt wh : String) (t0 : Nat)
    (inp : Option String) (env : RunEnv) :
    List.Chain' (fun a b => allowedTransition a b = true)
        (statusTrace (submitMeta id args mt wh t0)
          (runJob (submitMeta id args mt wh t0) inp env))
    ∧ ((statusTrace (submitMeta id args mt wh t0)
          (runJob (submitMeta id args mt wh t0) inp env)).dropLast.all
        (fun s => !(isTerminal s)) = true)
    ∧ ((statusTrace (submitMeta id args mt wh t0)
          (runJob (submitMeta id args mt wh t0) inp env)).getLast?.map isTerminal
        = some true)
    ∧ cancelRequest
        (registryAfter [] (runJob (submitMeta id args mt wh t0) inp env)) id
        = false := by
  obtain ⟨sp, oo, w, c, ts, te⟩ := env
  by_cases hw : wh = "" <;>
    rcases sp with _ | pid <;> rcases inp with _ | p <;>
    rcases oo with _ | _ <;> rcases c with _ | _ <;> rcases w with _ | _ <;>
    simp [runJob, savedMetas, statusTrace, submitMeta, resolveTerminal, sendWebhook,
      isTerminal, allowedTransition, cancelRequest, registryAfter, registryStep,
      List.chain'_cons, List.chain'_singleton, hw]

/-- C3: the result endpoint serves the captured stdout bytes exactly
when the job's metadata loads and its status is `COMPLETED`; every
response is either those bytes or a 404; an unknown id 404s; and any
loaded status among `IN_QUEUE`, `IN_PROGRESS`, `FAILED`, `CANCELED`
404s. -/
theorem result_endpoint_completed_iff (file : MetaFile) (out : String) :
    (resultEndpoint file out = .ok out ↔
        ∃ m, loadMeta file = .ok m ∧ m.status = "COMPLETED")
    ∧ (resultEndpoint file out = .ok out ∨ resultEndpoint file out = .notFound)
    ∧ resultEndpoint none out = .notFound
    ∧ (∀ m, loadMeta file = .ok m →
        m.status ∈ (["IN_QUEUE", "IN_PROGRESS", "FAILED", "CANCELED"] : List String) →
        resultEndpoint file out = .notFound) := by
  rcases file with _ | parsed
  · simp [resultEndpoint, loadMeta]
  · refine ⟨?_, ?_, by simp [resultEndpoint, loadMeta], ?_⟩
    · by_cases hs : (unmarshalMeta parsed).status = "COMPLETED" <;>
        simp [resultEndpoint, loadMeta, hs]
    · by_cases hs : (unmarshalMeta parsed).status = "COMPLETED" <;>
        simp [resultEndpoint, loadMeta, hs]
    · intro m hm hmem
      simp only [loadMeta, Except.ok.injEq] at hm
      subst hm
      simp only [List.mem_cons, List.not_mem_nil, or_false] at hmem
      rcases hmem with h | h | h | h <;>
        simp [resultEndpoint, loadMeta, h]

/-- Witness for C3: a job record whose status is `IN_QUEUE` gets a 404
from the result endpoint. -/
theorem result_endpoint_completed_iff_witness :
    loadMeta (some (some (submitMeta "a" [] "" "" 0)))
        = .ok (submitMeta "a" [] "" "" 0)
    ∧ (submitMeta "a" [] "" "" 0).status
        ∈ (["IN_QUEUE", "IN_PROGRESS", "FAILED", "CANCELED"] : List String)
    ∧ resultEndpoint (some (some (submitMeta "a" [] "" "" 0))) "out" = .notFound :=
  ⟨rfl, by decide,
   (result_endpoint_completed_iff (some (some (submitMeta "a" [] "" "" 0))) "out").2.2.2
     (submitMeta "a" [] "" "" 0) rfl (by decide)⟩

/-- C4: on spawn failure the only record `runJob` persists is the
`FAILED` record (so the trace from submission is
`IN_QUEUE → FAILED`), it carries no process identifier, both its
timestamps equal the failure instant, and no registry insertion ever
happens. -/
theorem spawn_failure_skips_in_progress (id : String) (args : List String)
    (mt wh : String) (t0 tf t1 : Nat) (inp : Option String) (openOk w c : Bool) :
    savedMetas (runJob (submitMeta id args mt wh t0) inp ⟨none, openOk, w, c, tf, t1⟩)
      = [{ submitMeta id args mt wh t0 with
           status := "FAILED"
           startedAt := some tf
           completedAt := some tf }]
    ∧ registerEvents (runJob (submitMeta id args mt wh t0) inp
        ⟨none, openOk, w, c, tf, t1⟩) = []
    ∧ (savedMetas (runJob (submitMeta id args mt wh t0) inp
        ⟨none, openOk, w, c, tf, t1⟩)).map JobMeta.pid = [none]
    ∧ (submitMeta id args mt wh t0).status = "IN_QUEUE"
    ∧ (submitMeta id args mt wh t0).pid = none := by
  rcases inp with _ | p <;> rcases openOk with _ | _ <;>
    simp [runJob, savedMetas, registerEvents, submitMeta]

/-- Counterexample to C5: a job submitted with a webhook URL whose
spawn fails persists the terminal status `FAILED`, yet no webhook
notification is ever attempted — the spawn-failure path returns before
the webhook block. -/
theorem webhook_skipped_on_spawn_failure_cex :
    (submitMeta "job-a" ["nonexistent-binary"] "" "http://hook.example" 0).webhook ≠ ""
    ∧ (savedMetas (runJob (submitMeta "job-a" ["nonexistent-binary"] "" "http://hook.example" 0)
          none ⟨none, true, false, false, 1, 1⟩)).map JobMeta.status = ["FAILED"]
    ∧ webhookEvents (runJob (submitMeta "job-a" ["nonexistent-binary"] "" "http://hook.example" 0)
          none ⟨none, true, false, false, 1, 1⟩) = [] :=
  ⟨by decide, rfl, rfl⟩

/-- C5 as amended: for a job whose process spawned, a non-empty
webhook URL gets exactly one notification attempt, it is the last
event of the run, and it comes immediately after the terminal record
is persisted; a job without a webhook URL gets none; and a job whose
spawn failed gets none even when a webhook URL was supplied. -/
theorem webhook_once_after_terminal_save_amended (meta : JobMeta)
    (inp : Option String) (openOk w c : Bool) (pid t0 t1 : Nat) :
    (meta.webhook ≠ "" →
        webhookEvents (runJob meta inp ⟨some pid, openOk, w, c, t0, t1⟩)
          = [sendWebhook { meta with
                           pid := some pid
                           status := resolveTerminal c w
                           startedAt := some t0
                           completedAt := some t1 }]
        ∧ (runJob meta inp ⟨some pid, openOk, w, c, t0, t1⟩).getLast?
          = some (.webhook (sendWebhook { meta with
                           pid := some pid
                           status := resolveTerminal c w
                           startedAt := some t0
                           completedAt := some t1 }))
        ∧ (runJob meta inp ⟨some pid, openOk, w, c, t0, t1⟩).dropLast.getLast?
          = some (.save { meta with
                          pid := some pid
                          status := resolveTerminal c w
                          startedAt := some t0
                          completedAt := some t1 }))
    ∧ (meta.webhook = "" →
        webhookEvents (runJob meta inp ⟨some pid, openOk, w, c, t0, t1⟩) = [])
    ∧ webhookEvents (runJob meta inp ⟨none, openOk, w, c, t0, t1⟩) = [] := by
  constructor
  · intro hw
    refine ⟨?_, ?_, ?_⟩ <;>
      rcases inp with _ | p <;> rcases openOk with _ | _ <;>
      simp [runJob, webhookEvents, hw]
  · constructor
    · intro hw
      rcases inp with _ | p <;> rcases openOk with _ | _ <;>
        simp [runJob, webhookEvents, hw]
    · rcases inp with _ | p <;> rcases openOk with _ | _ <;>
        simp [runJob, webhookEvents]

/-- Witness for the amended C5: a successfully spawned job with a
webhook URL produces exactly one notification, carrying its terminal
record. -/
theorem webhook_once_after_terminal_save_amended_witness :
    ("http://h" : String) ≠ ""
    ∧ webhookEvents (runJob (submitMeta "j" ["x"] "" "http://h" 0) none
        ⟨some 5, true, false, false, 1, 2⟩)
      = [sendWebhook { submitMeta "j" ["x"] "" "http://h" 0 with
                       pid := some 5
                       status := resolveTerminal false false
                       startedAt := some 1
                       completedAt := some 2 }] :=
  ⟨by decide,
   ((webhook_once_after_terminal_save_amended (submitMeta "j" ["x"] "" "http://h" 0)
      none true false false 5 1 2).1 (by decide)).1⟩

/-- Counterexample to C6: after a normal run the terminal record still
carries the process identifier — `meta.PID` is never reset, so the pid
is not absent from records persisted after the terminal state. -/
theorem pid_present_in_terminal_record_cex :
    ((savedMetas (runJob (submitMeta "job-b" ["sleep", "60"] "" "" 0) none
        ⟨some 77, true, false, false, 1, 2⟩)).getLast?.map
      (fun m => (isTerminal m.status, m.pid))) = some (true, some 77) :=
  rfl

/-- C6 as amended: the process identifier is absent from the
`IN_QUEUE` record, present in the `IN_PROGRESS` record, and remains
present in the terminal record persisted after the process exits; only
the spawn-failure `FAILED` record never carries one. -/
theorem pid_lifecycle_amended (id : String) (args : List String)
    (mt wh : String) (t0 tf t1 t2 : Nat) (inp : Option String)
    (openOk w c : Bool) (pid : Nat) :
    (submitMeta id args mt wh t0).pid = none
    ∧ (savedMetas (runJob (submitMeta id args mt wh t0) inp
          ⟨some pid, openOk, w, c, t1, t2⟩)).map (fun m => (m.status, m.pid))
        = [("IN_PROGRESS", some pid), (resolveTerminal c w, some pid)]
    ∧ (savedMetas (runJob (submitMeta id args mt wh t0) inp
          ⟨none, openOk, w, c, tf, t2⟩)).map (fun m => (m.status, m.pid))
        = [("FAILED", none)] := by
  refine ⟨rfl, ?_, ?_⟩ <;>
    by_cases hw : wh = "" <;>
    rcases inp with _ | p <;> rcases openOk with _ | _ <;>
    simp [runJob, savedMetas, submitMeta, hw]

/-- Counterexample to C7: when the spawn fails, the staged input file
is never removed — the spawn-failure path returns before the
`os.Remove` call — even though the run is over and `FAILED` was
persisted. -/
theorem input_file_not_removed_on_spawn_failure_cex :
    (savedMetas (runJob (submitMeta "job-c" ["x"] "" "" 0) (some "/tmp/input-job-c.tmp")
        ⟨none, true, false, false, 1, 1⟩)).map JobMeta.status = ["FAILED"]
    ∧ removeInputEvents (runJob (submitMeta "job-c" ["x"] "" "" 0)
        (some "/tmp/input-job-c.tmp") ⟨none, true, false, false, 1, 1⟩) = [] :=
  ⟨rfl, rfl⟩

/-- C7 as amended: the staged input payload is attached as the child's
standard input whenever the staged file can be opened; after a
successful spawn the staged file is removed once the process exits,
whatever the outcome (`COMPLETED`, `FAILED` and `CANCELED` alike); on
spawn failure it is not removed. -/
theorem staged_input_lifecycle_amended (meta : JobMeta) (p : String)
    (openOk w c : Bool) (pid t0 t1 : Nat) :
    attachStdinEvents (runJob meta (some p) ⟨some pid, openOk, w, c, t0, t1⟩)
      = (if openOk then [p] else [])
    ∧ removeInputEvents (runJob meta (some p) ⟨some pid, openOk, w, c, t0, t1⟩) = [p]
    ∧ attachStdinEvents (runJob meta (some p) ⟨none, openOk, w, c, t0, t1⟩)
      = (if openOk then [p] else [])
    ∧ removeInputEvents (runJob meta (some p) ⟨none, openOk, w, c, t0, t1⟩) = []
    ∧ removeInputEvents (runJob meta none ⟨some pid, openOk, w, c, t0, t1⟩) = [] := by
  by_cases hw : meta.webhook = "" <;> rcases openOk with _ | _ <;>
    simp [runJob, attachStdinEvents, removeInputEvents, hw]

/-- C8: the job listing contains exactly one entry per readable,
parseable record (it is a permutation of the entries built from those
records, hence of the same length), and it is ordered newest first:
every adjacent pair has the earlier entry's enqueued time at least the
later entry's. -/
theorem list_jobs_one_entry_per_record_sorted_desc (baseURL : String)
    (entries : List (Option JobMeta)) :
    (listJobs baseURL entries).Perm ((entries.filterMap id).map (mkListing baseURL))
    ∧ List.Chain' (fun a b => b.enqueuedAt ≤ a.enqueuedAt) (listJobs baseURL entries)
    ∧ (listJobs baseURL entries).length = (entries.filterMap id).length := by
  have htot : IsTotal JobListing (fun a b => b.enqueuedAt ≤ a.enqueuedAt) :=
    ⟨fun a b => Nat.le_total b.enqueuedAt a.enqueuedAt⟩
  have htrans : IsTrans JobListing (fun a b => b.enqueuedAt ≤ a.enqueuedAt) :=
    ⟨fun a b c hab hbc => Nat.le_trans hbc hab⟩
  have hperm : (listJobs baseURL entries).Perm
      ((entries.filterMap id).map (mkListing baseURL)) := by
    rw [listJobs, sortByEnqDesc, filterMap_option_map]
    exact List.perm_insertionSort _ _
  refine ⟨hperm, ?_, ?_⟩
  · exact (List.sorted_insertionSort _ _).chain'
  · rw [hperm.length_eq, List.length_map]

/-- C9: `loadMeta` fails exactly when the metadata file cannot be
read; readable but unparseable content loads successfully as the
zero-valued record (empty id, empty args, empty status), and the
status endpoint answers for a corrupted file exactly as it would for a
genuinely zero-valued record. -/
theorem load_meta_corrupt_indistinguishable (file : MetaFile) :
    ((∃ m, loadMeta file = .ok m) ↔ file ≠ none)
    ∧ loadMeta (some none) = .ok zeroMeta
    ∧ zeroMeta.id = "" ∧ zeroMeta.args = [] ∧ zeroMeta.status = ""
    ∧ statusEndpoint (some none) = statusEndpoint (some (some zeroMeta))
    ∧ statusEndpoint (some none) = .ok zeroMeta := by
  refine ⟨?_, rfl, rfl, rfl, rfl, rfl, rfl⟩
  rcases file with _ | parsed <;> simp [loadMeta]

/-- C10: the webhook body is exactly the three fields `id`, `status`
and `result_url`; its `result_url` is always the relative path
`/jobs/(id)/result`, and every webhook payload a run emits carries that
relative path, while the submission response's `result_url` gets the
`BASE_URL` prefix whenever it is set. -/
theorem webhook_payload_relative_result_url (meta : JobMeta) (baseURL : String)
    (inp : Option String) (env : RunEnv) :
    sendWebhook meta = { id := meta.id
                         status := meta.status
                         result_url := "/jobs/" ++ meta.id ++ "/result" }
    ∧ (baseURL ≠ "" →
        (submitResponse baseURL meta.id).result_url
            = baseURL ++ ("/jobs/" ++ meta.id ++ "/result")
        ∧ (sendWebhook meta).result_url = "/jobs/" ++ meta.id ++ "/result")
    ∧ (webhookEvents (runJob meta inp env)).all
        (fun p => p.result_url = "/jobs/" ++ meta.id ++ "/result") = true := by
  refine ⟨rfl, ?_, ?_⟩
  · intro hb
    constructor
    · simp [submitResponse, hb]
    · rfl
  · obtain ⟨sp, oo, w, c, ts, te⟩ := env
    by_cases hw : meta.webhook = "" <;>
      rcases sp with _ | pid <;> rcases inp with _ | p <;> rcases oo with _ | _ <;>
      simp [runJob, webhookEvents, sendWebhook, hw]

/-- Witness for C10: with `BASE_URL` set, the submission response's
result URL is prefixed while the webhook payload's result URL stays
relative. -/
theorem webhook_payload_relative_result_url_witness :
    ("http://base" : String) ≠ ""
    ∧ (submitResponse "http://base" (submitMeta "j" [] "" "" 0).id).result_url
        = "http://base" ++ ("/jobs/" ++ (submitMeta "j" [] "" "" 0).id ++ "/result")
    ∧ (sendWebhook (submitMeta "j" [] "" "" 0)).result_url
        = "/jobs/" ++ (submitMeta "j" [] "" "" 0).id ++ "/result" :=
  ⟨by decide,
   ((webhook_payload_relative_result_url (submitMeta "j" [] "" "" 0) "http://base" none
      ⟨none, true, false, false, 0, 0⟩).2.1 (by decide)).1,
   ((webhook_payload_relative_result_url (submitMeta "j" [] "" "" 0) "http://base" none
      ⟨none, true, false, false, 0, 0⟩).2.1 (by decide)).2⟩

end ShellJobQueue
